import Mathlib

/-!
Verification development for the GeminiHydra ADK sidecar.

Shallow embedding of the pattern-selection and tool-bridging layer:
the QualityGate exit-condition checker and the refinement loop
(adk/agents/orchestration.py), the topology builders and their output
keys (orchestration.py, review_pipeline.py, witcher_agents.py,
coordinator.py), the HTTP tool bridge (adk/tools/bridge.py), and the
request router (adk/server.py).

Agent Handles are represented by their ids (dictionary keys of the
agent mapping, in insertion order); each handle is built with
output_key equal to its id followed by the literal suffix "_output"
(witcher_agents.py, build_witcher_agents).
-/

/-- Session state bag as seen by the QualityGate: the two loop-control
keys it reads and writes. `none` models the key being absent from the
dictionary, in which case the defaults "needs_work" and 0 apply
(orchestration.py, QualityGate). -/
structure SessionState where
  review_status : Option String
  iteration_count : Option Nat
deriving Repr, DecidableEq

/-- Result of one QualityGate invocation: the updated session state,
the escalate flag on the emitted event, and the status message content
(orchestration.py, QualityGate). -/
structure GateResult where
  state : SessionState
  escalate : Bool
  message : String
deriving Repr, DecidableEq

/-- Embedding of QualityGate. The constructor default for
max_retries is 3 (QualityGate, orchestration.py). -/
def qualityGateDefaultMaxRetries : Nat := 3

/-- One invocation of QualityGate: reads review_status
(default "needs_work") and iteration_count (default 0), writes back
iteration_count + 1, escalates when the status equals "approved" or the
read iteration count has reached max_retries
(orchestration.py, QualityGate). -/
def qualityGateRun (maxRetries : Nat) (s : SessionState) : GateResult :=
  let review_status := s.review_status.getD "needs_work"
  let iteration := s.iteration_count.getD 0
  let stateAfter : SessionState := { s with iteration_count := some (iteration + 1) }
  let should_exit := review_status == "approved" || decide (maxRetries ≤ iteration)
  let statusMsg := "Quality gate: " ++ review_status ++ " (iteration "
      ++ toString (iteration + 1) ++ "/" ++ toString (maxRetries + 1) ++ ")"
  let statusMsg := if should_exit && review_status != "approved" then
      statusMsg ++ " — max iterations reached, accepting current state"
    else statusMsg
  ⟨stateAfter, should_exit, statusMsg⟩

/-- C1: on every invocation the QualityGate increments and writes back
iteration_count (leaving review_status untouched) and escalates exactly
when review_status is "approved" (regardless of the iteration count)
or the iteration count read from state has reached max_retries. -/
theorem qualityGate_increments_and_exits_iff (maxRetries : Nat) (s : SessionState) :
    (qualityGateRun maxRetries s).state.iteration_count
        = some (s.iteration_count.getD 0 + 1) ∧
    (qualityGateRun maxRetries s).state.review_status = s.review_status ∧
    ((qualityGateRun maxRetries s).escalate = true ↔
      s.review_status.getD "needs_work" = "approved"
        ∨ maxRetries ≤ s.iteration_count.getD 0) := by
  refine ⟨rfl, rfl, ?_⟩
  simp [qualityGateRun]

/-- Modelled from the spec: the execution semantics of the framework
LoopAgent (google.adk, not part of this repository) — "repeated up to a
hard cap of ... full cycles regardless of the checker's own internal
retry budget"; each cycle runs the body once and the loop stops as soon
as a cycle escalates or the iteration cap is exhausted. Returns the
number of full cycles executed. -/
def loopCycles : Nat → (SessionState → SessionState × Bool) → SessionState → Nat
  | 0, _, _ => 0
  | n + 1, body, s =>
    let r := body s
    if r.2 then 1 else 1 + loopCycles n body r.1

/-- One full cycle of the refinement loop: coder step, then reviewer
step (both LlmAgents, modelled as arbitrary state transformers), then
the QualityGate, whose escalate flag ends the loop
(orchestration.py, build_refinement_loop). -/
def refinementCycle (maxRetries : Nat) (coder reviewer : SessionState → SessionState)
    (s : SessionState) : SessionState × Bool :=
  let g := qualityGateRun maxRetries (reviewer (coder s))
  (g.state, g.escalate)

/-- The outer iteration cap passed to the LoopAgent:
max_iterations=5 (orchestration.py, build_refinement_loop). -/
def refinementLoopMaxIterations : Nat := 5

/-- Number of full coder → reviewer → checker cycles one execution of
the refinement-loop topology performs, for a QualityGate configured
with maxRetries (orchestration.py, build_refinement_loop). -/
def refinementLoopCycles (maxRetries : Nat) (coder reviewer : SessionState → SessionState)
    (s : SessionState) : Nat :=
  loopCycles refinementLoopMaxIterations (refinementCycle maxRetries coder reviewer) s

/-- A bounded loop never executes more cycles than its cap. -/
theorem loopCycles_le (n : Nat) (body : SessionState → SessionState × Bool) :
    ∀ s : SessionState, loopCycles n body s ≤ n := by
  induction n with
  | zero => intro s; simp [loopCycles]
  | succ n ih =>
    intro s
    simp only [loopCycles]
    split
    · omega
    · have := ih (body s).1
      omega

/-- C2: the refinement loop performs at most 5 full cycles even when the
QualityGate is configured with max_retries above 5, for every coder and
reviewer behaviour and every starting state. -/
theorem refinementLoop_capped_at_five (maxRetries : Nat)
    (coder reviewer : SessionState → SessionState) (s : SessionState)
    (h : 5 < maxRetries) :
    refinementLoopCycles maxRetries coder reviewer s ≤ 5 :=
  loopCycles_le refinementLoopMaxIterations (refinementCycle maxRetries coder reviewer) s

/-- Witness for C2 at max_retries = 10, identity coder and reviewer,
and the empty starting state. -/
theorem refinementLoop_capped_at_five_witness :
    5 < 10 ∧ refinementLoopCycles 10 id id ⟨none, none⟩ ≤ 5 :=
  ⟨by decide, refinementLoop_capped_at_five 10 id id ⟨none, none⟩ (by decide)⟩

/-- Output key of an Agent Handle built from a definition with the
given id: output_key=f"{agent_id}_output"
(witcher_agents.py, build_witcher_agents). -/
def outputKey (agent_id : String) : String := agent_id ++ "_output"

/-- Embedding of _pick_agents: pick agents by id, filtering out the
ids missing from the mapping (orchestration.py, _pick_agents). -/
def pickAgents (agents : List String) (ids : List String) : List String :=
  ids.filter (fun aid => agents.contains aid)

/-- Handles of the 4-stage sequential code-review pipeline: the picked
roles, or the first four mapping entries when fewer than two named
roles exist (orchestration.py, build_code_review_pipeline). -/
def codeReviewSub (agents : List String) : List String :=
  let sub := pickAgents agents ["eskel", "vesemir", "geralt", "jaskier"]
  if sub.length < 2 then agents.take 4 else sub

/-- Fan-out branches of the parallel-analysis pipeline: the picked
roles geralt, ciri, yennefer, or the first three mapping entries when
fewer than two of them exist (orchestration.py, build_analysis_pipeline). -/
def parallelBranches (agents : List String) : List String :=
  let p := pickAgents agents ["geralt", "ciri", "yennefer"]
  if p.length < 2 then agents.take 3 else p

/-- Embedding of agents.get("eskel", list(agents.values())[0]): Python
evaluates the default argument first, so an empty mapping raises
IndexError (modelled as none) before the lookup happens; otherwise the
result is eskel when present, else the first mapping entry
(orchestration.py build_refinement_loop, review_pipeline.py
build_review_pipeline and build_security_review). -/
def coderLookup (agents : List String) : Option String :=
  match agents.head? with
  | none => none
  | some first => some (if agents.contains "eskel" then "eskel" else first)

/-- The six built topologies (orchestration.py, review_pipeline.py,
coordinator.py). -/
inductive TopologyName where
  | sequential
  | parallel
  | loop
  | review
  | security
  | coordinator
deriving Repr, DecidableEq

/-- Ids of the Agent Handles (mapping-derived agents) appearing in each
topology; inline agents built on the spot (synthesizer, code_reviewer,
critic, security_reviewer, the coordinator itself) are not Agent
Handles and carry fixed output keys of their own. -/
def topologyHandleIds (agents : List String) : TopologyName → List String
  | .sequential => codeReviewSub agents
  | .parallel => parallelBranches agents
  | .loop => (coderLookup agents).toList
  | .review => (coderLookup agents).toList
  | .security =>
      (coderLookup agents).toList ++ (if agents.contains "geralt" then ["geralt"] else [])
  | .coordinator => agents

/-- Two handle ids with the same output key are the same id. -/
theorem outputKey_injective : Function.Injective outputKey := by
  intro a b h
  have hd : (a ++ "_output").data = (b ++ "_output").data := congrArg String.data h
  simp only [String.data_append] at hd
  exact String.ext (List.append_cancel_right hd)

/-- C3: in every built topology, fan-out branches included, two distinct
Agent Handles never share an output key; in particular the output keys
of the parallel-analysis fan-out branches are pairwise distinct. -/
theorem topology_output_keys_unique (agents : List String) (hnd : agents.Nodup) :
    (∀ t : TopologyName, ∀ a ∈ topologyHandleIds agents t,
      ∀ b ∈ topologyHandleIds agents t, a ≠ b → outputKey a ≠ outputKey b) ∧
    ((parallelBranches agents).map outputKey).Nodup := by
  constructor
  · intro t a _ b _ hne hkey
    exact hne (outputKey_injective hkey)
  · have hbranches : (parallelBranches agents).Nodup := by
      simp only [parallelBranches]
      split
      · exact hnd.sublist (List.take_sublist 3 agents)
      · exact List.Nodup.filter _ (by decide)
    exact hbranches.map outputKey_injective

/-- Witness for C3 on the mapping with ids a, b, c (no named analysis
role present, so the parallel branches are the first three handles). -/
theorem topology_output_keys_unique_witness :
    (["a", "b", "c"] : List String).Nodup ∧
    outputKey "a" ≠ outputKey "b" ∧
    ((parallelBranches ["a", "b", "c"]).map outputKey).Nodup :=
  ⟨by decide,
   (topology_output_keys_unique ["a", "b", "c"] (by decide)).1 TopologyName.parallel
     "a" (by decide) "b" (by decide) (by decide),
   (topology_output_keys_unique ["a", "b", "c"] (by decide)).2⟩

/-- JSON value carried in a tool-call argument mapping
(bridge.py passes strings, ints and booleans). -/
inductive JsonVal where
  | str (s : String)
  | num (n : Int)
  | bool (b : Bool)
deriving Repr, DecidableEq

/-- An HTTP response from the backend tool endpoint: status code and
body (bridge.py, _call_tool). -/
structure HttpResponse where
  status : Nat
  body : String
deriving Repr, DecidableEq

/-- The error httpx raises from resp.raise_for_status() on a
non-success response; it carries the response, hence its status and
body (bridge.py, _call_tool). -/
structure HTTPStatusError where
  status : Nat
  body : String
deriving Repr, DecidableEq

/-- Embedding of _call_tool: one POST of name and args to the tool
endpoint, modelled as a function of the single HTTP response that one
request produced. raise_for_status raises for every non-2xx status;
otherwise the decoded body is returned. There is no retry and no
handler around the call (bridge.py, _call_tool). -/
def callTool (name : String) (args : List (String × JsonVal))
    (resp : HttpResponse) : Except HTTPStatusError String :=
  if 200 ≤ resp.status ∧ resp.status < 300 then .ok resp.body
  else .error ⟨resp.status, resp.body⟩

/-- Argument mapping built by search_files; the limit argument is
placed in the mapping exactly as the caller passed it
(bridge.py, search_files). Python defaults: file_extensions="",
offset=0, limit=80, multiline=False. -/
def searchFilesArgs (path pattern file_extensions : String)
    (offset limit : Int) (multiline : Bool) : List (String × JsonVal) :=
  let args : List (String × JsonVal) :=
    [("path", .str path), ("pattern", .str pattern), ("offset", .num offset),
     ("limit", .num limit), ("multiline", .bool multiline)]
  if file_extensions ≠ "" then args ++ [("file_extensions", .str file_extensions)]
  else args

/-- Embedding of search_files: builds the argument mapping and returns
the result of _call_tool on it (bridge.py, search_files). -/
def searchFiles (path pattern file_extensions : String)
    (offset limit : Int) (multiline : Bool)
    (resp : HttpResponse) : Except HTTPStatusError String :=
  callTool "search_files"
    (searchFilesArgs path pattern file_extensions offset limit multiline) resp

/-- C4: every tool-bridge call whose response status is not 2xx fails
with the raise_for_status error carrying that status and body; the
error is the call result itself (never swallowed), and the call
consumes exactly one request/response, so no retry happens. -/
theorem callTool_non2xx_fails (name : String) (args : List (String × JsonVal))
    (resp : HttpResponse) (h : ¬(200 ≤ resp.status ∧ resp.status < 300)) :
    callTool name args resp = .error ⟨resp.status, resp.body⟩ := by
  simp [callTool, h]

/-- Witness for C4: an HTTP 500 response with body "boom" surfaces as
the error carrying 500 and "boom". -/
theorem callTool_non2xx_fails_witness :
    ¬(200 ≤ 500 ∧ 500 < 300) ∧
    callTool "search_files" [] ⟨500, "boom"⟩ = .error ⟨500, "boom"⟩ :=
  ⟨by decide, callTool_non2xx_fails "search_files" [] ⟨500, "boom"⟩ (by decide)⟩

/-- C5 counterexample: a search_files call with limit=1000 is forwarded
with limit still 1000 in the argument mapping, and on a 200 response it
is honored, not rejected — no local clamping to 150 exists. -/
theorem searchFiles_limit1000_forwarded :
    (searchFilesArgs "C:/repo" "foo" "" 0 1000 false).lookup "limit"
        = some (.num 1000) ∧
    searchFiles "C:/repo" "foo" "" 0 1000 false ⟨200, "results"⟩ = .ok "results" := by
  constructor
  · rfl
  · rfl

/-- C5 amended: search_files forwards the limit argument unchanged in
the mapping sent to the tool endpoint, for every input. -/
theorem searchFiles_limit_forwarded_unchanged (path pattern file_extensions : String)
    (offset limit : Int) (multiline : Bool) :
    (searchFilesArgs path pattern file_extensions offset limit multiline).lookup "limit"
      = some (.num limit) := by
  simp only [searchFilesArgs]
  split <;> rfl

/-- One entry of newMessage.parts; the text field is present when the
part dictionary has a "text" key (server.py, _extract_message). -/
structure MessagePart where
  text : Option String
deriving Repr, DecidableEq

/-- An inbound run request: userId, sessionId, the parts of newMessage,
the optional top-level prompt field, and config.pattern
(server.py, run_agent). -/
structure RunRequest where
  userId : Option String
  sessionId : Option String
  parts : List MessagePart
  prompt : Option String
  pattern : Option String
deriving Repr, DecidableEq

/-- Embedding of _extract_message: return the text of the first part
carrying one; otherwise fall back to the top-level prompt field,
defaulting to the empty string (server.py, _extract_message). -/
def extractMessage (req : RunRequest) : String :=
  match req.parts.find? (fun p => p.text.isSome) with
  | some p => p.text.getD ""
  | none => req.prompt.getD ""

/-- The runner the router resolves a request to: the coordinator
runner, or a fresh runner for one named pipeline (server.py,
_get_runner_for_pattern). -/
inductive RunnerChoice where
  | coordinator
  | pipeline (name : String)
deriving Repr, DecidableEq

/-- Embedding of _get_runner_for_pattern: the coordinator runner when
the pattern is absent, falsy (empty string), "hierarchical", or not a
key of the pipeline catalogue; otherwise a runner for that pipeline
(server.py, _get_runner_for_pattern). -/
def getRunnerForPattern (pipelines : List String) (pattern : Option String) :
    RunnerChoice :=
  match pattern with
  | none => .coordinator
  | some p =>
      if p = "" || p = "hierarchical" || !(pipelines.contains p) then .coordinator
      else .pipeline p

/-- Outcome of the /run endpoint (server.py, run_agent): the error
dictionary when the runner is not initialized, otherwise a completed
pass with the extracted message and the resolved runner. -/
inductive RunOutcome where
  | notInitialized
  | completed (message : String) (runner : RunnerChoice)
deriving Repr, DecidableEq

/-- Embedding of run_agent: an uninitialized runner short-circuits to
the error response; otherwise the message text is extracted (with its
prompt fallback), the pattern is resolved, and the pass runs — there
is no validation that any part carried text
(server.py, run_agent). -/
def runAgent (initialized : Bool) (pipelines : List String) (req : RunRequest) :
    RunOutcome :=
  if !initialized then .notInitialized
  else .completed (extractMessage req) (getRunnerForPattern pipelines req.pattern)

/-- Names returned by build_all_pipelines, in dictionary insertion
order (orchestration.py, build_all_pipelines). -/
def buildAllPipelineNames : List String := ["sequential", "parallel", "loop"]

/-- Pipeline catalogue built at startup: empty when no agent was
loaded; otherwise build_all_pipelines plus the review and security
entries added afterwards (server.py, startup). -/
def startupPipelineNames (agents : List String) : List String :=
  if agents.isEmpty then [] else buildAllPipelineNames ++ ["review", "security"]

/-- The five selector names of the full catalogue. -/
def catalogueNames : List String := buildAllPipelineNames ++ ["review", "security"]

/-- Response of the /list-apps introspection endpoint
(server.py, list_apps). -/
structure ListAppsResponse where
  apps : List String
  agents : List String
  pipelines : List String
  status : String
deriving Repr, DecidableEq

/-- Embedding of list_apps: reports the loaded agent ids, the built
pipeline names, and readiness (server.py, list_apps). -/
def listApps (agents pipelines : List String) (runnerReady : Bool) :
    ListAppsResponse :=
  { apps := ["geminihydra"], agents := agents, pipelines := pipelines,
    status := if runnerReady then "ready" else "initializing" }

/-- C6 counterexample: a run request whose newMessage parts carry no
text (and with no prompt field) is processed normally — the pass
completes with the empty message on the coordinator — instead of
failing with an InvalidRequestError. -/
theorem runAgent_missingText_processed :
    runAgent true catalogueNames
      { userId := none, sessionId := none, parts := [{ text := none }],
        prompt := none, pattern := none }
      = RunOutcome.completed "" RunnerChoice.coordinator := rfl

/-- C6 amended: when no part of newMessage carries text, the router
falls back to the top-level prompt field (defaulting to the empty
string) and completes the pass with that message; no error is raised
for the missing message text. -/
theorem runAgent_missingText_falls_back (req : RunRequest)
    (h : ∀ p ∈ req.parts, p.text = none) (pipelines : List String) :
    extractMessage req = req.prompt.getD "" ∧
    runAgent true pipelines req =
      RunOutcome.completed (req.prompt.getD "")
        (getRunnerForPattern pipelines req.pattern) := by
  have hfind : req.parts.find? (fun p => p.text.isSome) = none := by
    rw [List.find?_eq_none]
    intro x hx
    simp [h x hx]
  refine ⟨?_, ?_⟩
  · simp [extractMessage, hfind]
  · simp [runAgent, extractMessage, hfind]

/-- Witness for C6 amended, at a request with one textless part and a
prompt field. -/
theorem runAgent_missingText_falls_back_witness :
    extractMessage
        { userId := none, sessionId := none, parts := [{ text := none }],
          prompt := some "hi", pattern := none } = "hi" ∧
    runAgent true catalogueNames
        { userId := none, sessionId := none, parts := [{ text := none }],
          prompt := some "hi", pattern := none }
      = RunOutcome.completed "hi" RunnerChoice.coordinator :=
  runAgent_missingText_falls_back
    { userId := none, sessionId := none, parts := [{ text := none }],
      prompt := some "hi", pattern := none }
    (by intro p hp; simp at hp; simp [hp]) catalogueNames

/-- C7: over the built catalogue, an absent selector resolves to the
coordinator, a selector naming a built topology resolves to that
topology, and a selector naming no built topology resolves to the
coordinator. -/
theorem pattern_resolution (p : String) :
    getRunnerForPattern catalogueNames none = RunnerChoice.coordinator ∧
    (p ∈ catalogueNames →
      getRunnerForPattern catalogueNames (some p) = RunnerChoice.pipeline p) ∧
    (p ∉ catalogueNames →
      getRunnerForPattern catalogueNames (some p) = RunnerChoice.coordinator) := by
  refine ⟨rfl, ?_, ?_⟩
  · intro hp
    fin_cases hp <;> rfl
  · intro hp
    have hc : catalogueNames.contains p = false := by
      simpa using hp
    simp [getRunnerForPattern, hc]
    exact fun _ _ => hp

/-- Witness for C7: the selector "parallel" resolves to the parallel
pipeline and the selector "bogus" to the coordinator. -/
theorem pattern_resolution_witness :
    getRunnerForPattern catalogueNames none = RunnerChoice.coordinator ∧
    getRunnerForPattern catalogueNames (some "parallel")
      = RunnerChoice.pipeline "parallel" ∧
    getRunnerForPattern catalogueNames (some "bogus") = RunnerChoice.coordinator :=
  ⟨(pattern_resolution "parallel").1,
   (pattern_resolution "parallel").2.1 (by decide),
   (pattern_resolution "bogus").2.2 (by decide)⟩

/-- C8: when exactly one of the three named parallel-analysis roles is
present in the mapping, the fan-out branches fall back to the first
three mapping entries. -/
theorem parallel_fallback_single_role (agents : List String)
    (h : (pickAgents agents ["geralt", "ciri", "yennefer"]).length = 1) :
    parallelBranches agents = agents.take 3 := by
  simp [parallelBranches, h]

/-- Witness for C8, on a mapping holding only the ciri role among the
three named ones. -/
theorem parallel_fallback_single_role_witness :
    (pickAgents ["ciri", "a", "b", "c"] ["geralt", "ciri", "yennefer"]).length = 1 ∧
    parallelBranches ["ciri", "a", "b", "c"]
      = (["ciri", "a", "b", "c"] : List String).take 3 :=
  ⟨by decide, parallel_fallback_single_role ["ciri", "a", "b", "c"] (by decide)⟩

/-- C9: on an empty mapping the coder/generator lookup fails (the
eagerly evaluated default raises IndexError) and the startup catalogue
is left empty; whenever the catalogue was built at all, the lookup
succeeds. -/
theorem empty_mapping_lookup_guarded (agents : List String) :
    coderLookup [] = none ∧
    startupPipelineNames [] = [] ∧
    (startupPipelineNames agents ≠ [] → (coderLookup agents).isSome = true) := by
  refine ⟨rfl, rfl, ?_⟩
  intro h
  cases agents with
  | nil => simp [startupPipelineNames] at h
  | cons a as => simp [coderLookup]

/-- Witness for C9 on the one-agent mapping geralt. -/
theorem empty_mapping_lookup_guarded_witness :
    coderLookup [] = none ∧
    startupPipelineNames ["geralt"] ≠ [] ∧
    (coderLookup ["geralt"]).isSome = true :=
  ⟨(empty_mapping_lookup_guarded []).1, by decide,
   (empty_mapping_lookup_guarded ["geralt"]).2.2 (by decide)⟩

/-- C10: when at least one agent was loaded, the built catalogue is
exactly the five selector names sequential, parallel, loop, review,
security, and the introspection endpoint reports exactly these. -/
theorem catalogue_exactly_five (agents : List String) (h : agents ≠ []) :
    startupPipelineNames agents
      = ["sequential", "parallel", "loop", "review", "security"] ∧
    (listApps agents (startupPipelineNames agents) true).pipelines
      = ["sequential", "parallel", "loop", "review", "security"] := by
  have he : agents.isEmpty = false := by
    cases agents with
    | nil => exact absurd rfl h
    | cons a as => rfl
  constructor <;> simp [startupPipelineNames, listApps, buildAllPipelineNames, he]

/-- Witness for C10 on the one-agent mapping eskel. -/
theorem catalogue_exactly_five_witness :
    (["eskel"] : List String) ≠ [] ∧
    startupPipelineNames ["eskel"]
      = ["sequential", "parallel", "loop", "review", "security"] ∧
    (listApps ["eskel"] (startupPipelineNames ["eskel"]) true).pipelines
      = ["sequential", "parallel", "loop", "review", "security"] :=
  ⟨by decide, (catalogue_exactly_five ["eskel"] (by decide)).1,
   (catalogue_exactly_five ["eskel"] (by decide)).2⟩
